import Mathlib

/-!
Shallow embedding of the ClaimCompass frontend controller
(`frontend/script.js`).  The browser state that the script reads and
writes (the two input controls, the four result/status cards, the
analyze button, the error message slot, the rendered result fields and
the module-global `currentAnalysisData`) is modelled as a record, and
every event handler / view-transition function of the script becomes a
Lean function on that record.  Network and download side effects are
recorded in an explicit effect trace; the outcome of the awaited
`fetch` is a parameter of the submit operation.
-/

namespace ClaimCompass

set_option autoImplicit false

/-- A file held by the file input: its name, MIME type and bytes
(modelled as a string). -/
structure File where
  name : String
  type : String
  content : String
deriving DecidableEq, Repr

/-- The clock values `downloadReport` reads: `new Date().toISOString()`
and `new Date().toLocaleString()`. -/
structure Timestamp where
  iso : String
  locale : String
deriving DecidableEq, Repr

/-- The JSON body of a `/api/analyze` response as the script reads it:
`success`, the error fields `detail` (non-2xx) and `error`
(`success:false`), and the five result fields.  `none` models an
absent/undefined field; `some ""` models an empty string (both are
falsy in JS). -/
structure RespBody where
  success : Bool
  detail : Option String
  error : Option String
  make : Option String
  model : Option String
  color : Option String
  damage_summary : Option String
  repair_cost_estimate : Option String
deriving DecidableEq, Repr

/-- The multipart form data built by `analyzeImage`: a `file` field
and/or an `image_url` field. -/
structure FormDataModel where
  file : Option File
  image_url : Option String
deriving DecidableEq, Repr

/-- An observable side effect: a POST of form data to `/api/analyze`,
or a client-side file download of a named text file. -/
inductive Effect where
  | post (fd : FormDataModel)
  | download (fname : String) (content : String)
deriving DecidableEq, Repr

/-- Outcome of the awaited `fetch` in `analyzeImage`: either the
promise rejects (network failure, `error.message` given), or a
response arrives with HTTP-ok flag `ok` and JSON body `body`. -/
inductive FetchOutcome where
  | thrown (msg : String)
  | resp (ok : Bool) (body : RespBody)
deriving DecidableEq, Repr

/-- The DOM/JS state the script manipulates. -/
structure UIState where
  /-- Content of `fileInput.files[0]` -/
  fileSel : Option File
  /-- Content of `imageUrlInput.value` -/
  urlValue : String
  filePreviewVisible : Bool
  urlPreviewVisible : Bool
  welcomeVisible : Bool
  loadingVisible : Bool
  resultsVisible : Bool
  errorVisible : Bool
  btnDisabled : Bool
  btnLabel : String
  /-- Text content of the errorMessage element -/
  errorMessage : String
  /-- Text content of the carMake element (and similarly below) -/
  carMake : String
  carModel : String
  carColor : String
  damageSummaryText : String
  repairCostText : String
  currentAnalysisData : Option RespBody
deriving DecidableEq, Repr

/-- JS `String.prototype.trim`, at the character-list level (so that it
reduces in the kernel). -/
def jsTrim (s : String) : String :=
  ⟨((s.data.dropWhile Char.isWhitespace).reverse.dropWhile Char.isWhitespace).reverse⟩

/-- JS `String.prototype.startsWith`, at the character-list level. -/
def strStartsWith (s pre : String) : Bool :=
  pre.data.isPrefixOf s.data

/-- JS `a || b` on a possibly-absent string: absent and `""` are falsy. -/
def jsOr (v : Option String) (d : String) : String :=
  match v with
  | none => d
  | some s => if s = "" then d else s

/-- JS template-literal interpolation of a possibly-absent string:
`${undefined}` renders as `"undefined"`. -/
def jsDisplay (v : Option String) : String :=
  match v with
  | none => "undefined"
  | some s => s

/-- `hay.includes(needle)` at the character-list level: the needle is a
prefix of some suffix of the haystack. -/
def listContains (hay needle : List Char) : Bool :=
  needle.isPrefixOf hay ||
    match hay with
    | [] => false
    | _ :: t => listContains t needle

/-- JS `String.prototype.includes`. -/
def containsStr (hay needle : String) : Bool :=
  listContains hay.data needle.data

/-- Model of `clearFile()` (script.js:136): empties the file input and hides
the file preview. -/
def clearFileOp (s : UIState) : UIState :=
  { s with fileSel := none, filePreviewVisible := false }

/-- Model of `clearUrl()` (script.js:142): empties the URL input and hides the
URL preview. -/
def clearUrlOp (s : UIState) : UIState :=
  { s with urlValue := "", urlPreviewVisible := false }

/-- Model of `hideLoading()` (script.js:228): hides the loading card and
re-enables the analyze button with its idle label. -/
def hideLoadingOp (s : UIState) : UIState :=
  { s with loadingVisible := false, btnDisabled := false,
           btnLabel := "Analyze Damage" }

/-- Model of `showLoading()` (script.js:218): hides the other three cards,
shows the loading card, disables the analyze button. -/
def showLoadingOp (s : UIState) : UIState :=
  { s with welcomeVisible := false, resultsVisible := false,
           errorVisible := false, loadingVisible := true,
           btnDisabled := true, btnLabel := "Analyzing..." }

/-- Model of `showError(message)` (script.js:255): sets the error text, hides
the welcome and results cards, shows the error card, then calls
`hideLoading()`. -/
def showErrorOp (message : String) (s : UIState) : UIState :=
  hideLoadingOp
    { s with errorMessage := message, welcomeVisible := false,
             resultsVisible := false, errorVisible := true }

/-- Model of `showResults(data)` (script.js:235): renders the five result
fields with their JS `||` defaults, hides the welcome and error cards
and shows the results card.  It does not touch the loading card. -/
def showResultsOp (data : RespBody) (s : UIState) : UIState :=
  { s with
    carMake := jsOr data.make "Unknown",
    carModel := jsOr data.model "Unknown",
    carColor := jsOr data.color "Unknown",
    damageSummaryText := jsOr data.damage_summary "No damage assessment available",
    repairCostText := jsOr data.repair_cost_estimate "Unable to estimate",
    welcomeVisible := false, errorVisible := false, resultsVisible := true }

/-- Model of `resetForm()` (script.js:271): clears both inputs, nulls the
result slot, hides results and error, shows the welcome card and
resets the button.  It does not touch the loading card. -/
def resetFormOp (s : UIState) : UIState :=
  { clearUrlOp (clearFileOp s) with
    currentAnalysisData := none,
    resultsVisible := false, errorVisible := false, welcomeVisible := true,
    btnDisabled := false, btnLabel := "Analyze Damage" }

/-- Model of `previewFile(file)` (script.js:104): a non-image MIME type only
shows an error (the selected file is NOT cleared); an image file shows
the preview (the async `FileReader.onload` is modelled as
immediate). -/
def previewFileOp (f : File) (s : UIState) : UIState :=
  if strStartsWith f.type "image/" then
    { s with filePreviewVisible := true }
  else
    showErrorOp "Please select an image file" s

/-- The `change` event on the file input: the browser stores the
chosen file list, then `handleFileSelect` (script.js:69) runs:
if a file is present, `clearUrl()` then `previewFile(file)`. -/
def handleFileSelectOp (fs : List File) (s : UIState) : UIState :=
  let s0 := { s with fileSel := fs.head? }
  match fs.head? with
  | none => s0
  | some f => previewFileOp f (clearUrlOp s0)

/-- Model of `handleDrop(event)` (script.js:87): an image drop stores the file
list, clears the URL and previews; a non-image drop only shows an
error and leaves the inputs unchanged. -/
def handleDropOp (fs : List File) (s : UIState) : UIState :=
  match fs.head? with
  | none => s
  | some f =>
    if strStartsWith f.type "image/" then
      previewFileOp f (clearUrlOp { s with fileSel := some f })
    else
      showErrorOp "Please drop an image file" s

/-- Model of `clearFileWhenUrlEntered()` (script.js:148), wired to the URL
input element fires its input event: the browser stores the new value, then the
handler clears the file input when the trimmed value is non-empty. -/
def urlInputOp (v : String) (s : UIState) : UIState :=
  let s0 := { s with urlValue := v }
  if jsTrim v ≠ "" then clearFileOp s0 else s0

/-- Model of `previewUrl()` (script.js:118): empty trimmed URL shows an error;
otherwise the file input is cleared and the preview image loads
(`loadOk = true`) or errors. -/
def previewUrlOp (loadOk : Bool) (s : UIState) : UIState :=
  if jsTrim s.urlValue = "" then
    showErrorOp "Please enter an image URL" s
  else
    let s1 := clearFileOp s
    if loadOk then
      { s1 with urlPreviewVisible := true }
    else
      showErrorOp "Unable to load image from URL. Please check the URL and try again."
        { s1 with urlPreviewVisible := false }

/-- The catch block of `analyzeImage` (script.js:206): a message
containing `"fetch"` is replaced by the generic connectivity message;
otherwise the (JS-truthy) message itself is shown, with a generic
fallback for an empty message. -/
def catchBlock (msg : String) (s : UIState) : UIState :=
  if containsStr msg "fetch" then
    showErrorOp "Unable to connect to the analysis service. Please check if the backend server is running." s
  else
    showErrorOp (jsOr (some msg) "Failed to analyze image. Please try again.") s

/-- Model of `analyzeImage(file, url)` (script.js:173): shows loading, POSTs
the form data, then branches on the outcome; a non-ok response throws
`detail` (with an "Analysis failed" fallback), a `success:false` body throws
`error` (same fallback), both landing in the catch block; a
successful body is stored in `currentAnalysisData` and rendered.  The
`finally` block always runs `hideLoading()`. -/
def analyzeImageOp (file : Option File) (url : String) (outcome : FetchOutcome)
    (s : UIState) : UIState × List Effect :=
  let s1 := showLoadingOp s
  let fd : FormDataModel :=
    { file := file, image_url := if url = "" then none else some url }
  match outcome with
  | .thrown msg => (hideLoadingOp (catchBlock msg s1), [Effect.post fd])
  | .resp ok body =>
    if ok then
      if body.success then
        let s2 := showResultsOp body { s1 with currentAnalysisData := some body }
        (hideLoadingOp s2, [Effect.post fd])
      else
        (hideLoadingOp (catchBlock (jsOr body.error "Analysis failed") s1), [Effect.post fd])
    else
      (hideLoadingOp (catchBlock (jsOr body.detail "Analysis failed") s1), [Effect.post fd])

/-- Model of `handleFormSubmit(event)` (script.js:154): reads the file and the
trimmed URL, rejects the neither/both cases with a validation error
and no network effect, and otherwise runs `analyzeImage`. -/
def handleFormSubmitOp (outcome : FetchOutcome) (s : UIState) : UIState × List Effect :=
  let file := s.fileSel
  let url := jsTrim s.urlValue
  if file.isNone ∧ url = "" then
    (showErrorOp "Please upload an image file or enter an image URL" s, [])
  else if file.isSome ∧ url ≠ "" then
    (showErrorOp "Please provide either a file or URL, not both" s, [])
  else
    analyzeImageOp file url outcome s

/-- The fixed disclaimer sentence of the report template. -/
def disclaimerText : String :=
  "This is an automated assessment for estimation purposes only. Professional inspection is recommended for accurate damage evaluation."

/-- The report template of `downloadReport` (script.js:308), after the
leading/trailing whitespace that the template literal itself
carries is removed by trim.  Fields come from `currentAnalysisData` raw (template
interpolation, not the rendered defaults). -/
def reportText (d : RespBody) (ts : Timestamp) : String :=
  "CLAIMCOMPASS DAMAGE ANALYSIS REPORT\nGenerated: " ++ ts.locale
  ++ "\n\nVEHICLE INFORMATION:\nMake: " ++ jsDisplay d.make
  ++ "\nModel: " ++ jsDisplay d.model
  ++ "\nColor: " ++ jsDisplay d.color
  ++ "\n\nDAMAGE ASSESSMENT:\n" ++ jsDisplay d.damage_summary
  ++ "\n\nESTIMATED REPAIR COST:\n" ++ jsDisplay d.repair_cost_estimate
  ++ "\n\nANALYSIS METHOD:\nAI-powered analysis using OpenAI GPT-4o\n\nDISCLAIMER:\n"
  ++ disclaimerText
  ++ "\n\n---\nReport generated by ClaimCompass\nAI-Powered Insurance Technology Demo"

/-- Timestamp formatting of script.js:338: the first 19 characters of
the ISO string, with every colon replaced by a dash. -/
def fmtStamp (iso : String) : String :=
  ⟨(iso.data.take 19).map fun c => if c = ':' then '-' else c⟩

/-- The download attribute of the generated anchor (script.js:338). -/
def reportFileName (ts : Timestamp) : String :=
  "ClaimCompass_Report_" ++ fmtStamp ts.iso ++ ".txt"

/-- Model of `downloadReport()` (script.js:287): with no stored result it shows
a local validation error and creates nothing; otherwise it serializes
the stored result into the text template and triggers a client-side
download.  No path performs a network request. -/
def downloadReportOp (ts : Timestamp) (s : UIState) : UIState × List Effect :=
  match s.currentAnalysisData with
  | none => (showErrorOp "No analysis data available to download" s, [])
  | some d => (s, [Effect.download (reportFileName ts) (reportText d ts)])

/-- Initial page state: welcome card visible, inputs empty, no
stored result. -/
def initState : UIState :=
  { fileSel := none, urlValue := "",
    filePreviewVisible := false, urlPreviewVisible := false,
    welcomeVisible := true, loadingVisible := false,
    resultsVisible := false, errorVisible := false,
    btnDisabled := false, btnLabel := "Analyze Damage",
    errorMessage := "", carMake := "", carModel := "", carColor := "",
    damageSummaryText := "", repairCostText := "",
    currentAnalysisData := none }

/-- A user/network event the page can process. -/
inductive Event where
  | fileSelect (fs : List File)
  | drop (fs : List File)
  | urlInput (v : String)
  | urlPreviewClick (loadOk : Bool)
  | submit (outcome : FetchOutcome)
  | reset
  | download (ts : Timestamp)
deriving Repr

/-- Process one event (submit carries the fetch outcome). -/
def applyEvent (s : UIState) : Event → UIState
  | .fileSelect fs => handleFileSelectOp fs s
  | .drop fs => handleDropOp fs s
  | .urlInput v => urlInputOp v s
  | .urlPreviewClick b => previewUrlOp b s
  | .submit o => (handleFormSubmitOp o s).1
  | .reset => resetFormOp s
  | .download ts => (downloadReportOp ts s).1

/-- States reachable from the initial page state by event-handler
sequences. -/
inductive Reachable : UIState → Prop where
  | init : Reachable initState
  | next (s : UIState) (e : Event) : Reachable s → Reachable (applyEvent s e)

/-- The file input and the (trimmed) URL input are never both
populated. -/
def exclusiveInputs (s : UIState) : Bool :=
  !(s.fileSel.isSome && jsTrim s.urlValue ≠ "")

/-- Number of the four status cards currently displayed. -/
def visibleCount (s : UIState) : Nat :=
  (if s.welcomeVisible then 1 else 0) + (if s.loadingVisible then 1 else 0)
  + (if s.resultsVisible then 1 else 0) + (if s.errorVisible then 1 else 0)

/-- Every call to `analyzeImage` records exactly one POST of the form
data it builds, whatever the outcome. -/
theorem analyzeImage_effects (f : Option File) (u : String) (o : FetchOutcome) (s : UIState) :
    (analyzeImageOp f u o s).2 =
      [Effect.post { file := f, image_url := if u = "" then none else some u }] := by
  cases o with
  | thrown m => rfl
  | resp ok b =>
    cases ok <;> cases hb : b.success <;> simp [analyzeImageOp, hb]

/-- A list is a prefix of itself followed by anything. -/
theorem isPrefixOf_append_self (x q : List Char) : x.isPrefixOf (x ++ q) = true := by
  induction x with
  | nil => simp [List.isPrefixOf]
  | cons a t ih => simp [List.isPrefixOf, ih]

/-- The needle is found at the head of the haystack. -/
theorem listContains_self_append (x q : List Char) : listContains (x ++ q) x = true := by
  unfold listContains
  simp [isPrefixOf_append_self]

/-- A needle found in the tail is found in the whole haystack. -/
theorem listContains_right (a x b : List Char) (h : listContains b x = true) :
    listContains (a ++ b) x = true := by
  induction a with
  | nil => simpa using h
  | cons c t ih =>
    unfold listContains
    simp [ih]

/-- String concatenation is associative. -/
theorem strAppend_assoc (a b c : String) : (a ++ b) ++ c = a ++ (b ++ c) := by
  apply String.ext
  simp [String.data_append]

/-- A string contains itself as a prefix of a concatenation. -/
theorem containsStr_head (x b : String) : containsStr (x ++ b) x = true := by
  unfold containsStr
  rw [String.data_append]
  exact listContains_self_append x.data b.data

/-- Containment is preserved by prepending. -/
theorem containsStr_tail (a b x : String) (h : containsStr b x = true) :
    containsStr (a ++ b) x = true := by
  unfold containsStr at *
  rw [String.data_append]
  exact listContains_right a.data x.data b.data h

/-- State shape after the catch block of `analyzeImage` followed by
the finally hideLoading: error card shown, everything else hidden,
inputs and result slot untouched, and the displayed message as the
catch logic computes it. -/
theorem catchBlock_shape (m : String) (s : UIState) :
    (hideLoadingOp (catchBlock m s)).errorVisible = true
  ∧ (hideLoadingOp (catchBlock m s)).resultsVisible = false
  ∧ (hideLoadingOp (catchBlock m s)).loadingVisible = false
  ∧ (hideLoadingOp (catchBlock m s)).btnDisabled = false
  ∧ (hideLoadingOp (catchBlock m s)).btnLabel = "Analyze Damage"
  ∧ (hideLoadingOp (catchBlock m s)).currentAnalysisData = s.currentAnalysisData
  ∧ (hideLoadingOp (catchBlock m s)).welcomeVisible = false
  ∧ (hideLoadingOp (catchBlock m s)).fileSel = s.fileSel
  ∧ (hideLoadingOp (catchBlock m s)).urlValue = s.urlValue
  ∧ (hideLoadingOp (catchBlock m s)).errorMessage =
      (if containsStr m "fetch" = true then
        "Unable to connect to the analysis service. Please check if the backend server is running."
      else jsOr (some m) "Failed to analyze image. Please try again.") := by
  unfold catchBlock
  split <;> simp_all [showErrorOp, hideLoadingOp]

/-- An analysis attempt never modifies the file selection or the URL
input value. -/
theorem analyzeImage_inputs (f : Option File) (u : String) (o : FetchOutcome) (s : UIState) :
    (analyzeImageOp f u o s).1.fileSel = s.fileSel
  ∧ (analyzeImageOp f u o s).1.urlValue = s.urlValue := by
  cases o with
  | thrown m =>
    obtain ⟨-, -, -, -, -, -, -, hf, hu, -⟩ := catchBlock_shape m (showLoadingOp s)
    exact ⟨hf, hu⟩
  | resp ok b =>
    cases ok with
    | false =>
      obtain ⟨-, -, -, -, -, -, -, hf, hu, -⟩ :=
        catchBlock_shape (jsOr b.detail "Analysis failed") (showLoadingOp s)
      exact ⟨hf, hu⟩
    | true =>
      cases hb : b.success with
      | false =>
        obtain ⟨-, -, -, -, -, -, -, hf, hu, -⟩ :=
          catchBlock_shape (jsOr b.error "Analysis failed") (showLoadingOp s)
        constructor <;> simp [analyzeImageOp, hb] <;> assumption
      | true =>
        constructor <;> simp [analyzeImageOp, hb, hideLoadingOp, showResultsOp, showLoadingOp]

/-- Every event handler preserves the input-exclusivity invariant. -/
theorem applyEvent_exclusive (s : UIState) (e : Event)
    (h : exclusiveInputs s = true) : exclusiveInputs (applyEvent s e) = true := by
  cases e with
  | fileSelect fs =>
    cases fs with
    | nil => simp [applyEvent, handleFileSelectOp, exclusiveInputs]
    | cons f t =>
      simp only [applyEvent, handleFileSelectOp, previewFileOp, List.head?,
                 clearUrlOp, exclusiveInputs]
      split <;> simp [showErrorOp, hideLoadingOp, jsTrim]
  | drop fs =>
    cases fs with
    | nil => simpa [applyEvent, handleDropOp] using h
    | cons f t =>
      simp only [applyEvent, handleDropOp, List.head?]
      split
      · simp [previewFileOp, clearUrlOp, exclusiveInputs, showErrorOp, hideLoadingOp, jsTrim]
        split <;> simp [jsTrim]
      · simpa [showErrorOp, hideLoadingOp, exclusiveInputs] using h
  | urlInput v =>
    simp only [applyEvent, urlInputOp, exclusiveInputs]
    split
    · simp [clearFileOp]
    · next hcond =>
      simp at hcond
      simp [hcond]
  | urlPreviewClick b =>
    simp only [applyEvent, previewUrlOp]
    split
    · simpa [showErrorOp, hideLoadingOp, exclusiveInputs] using h
    · split <;> simp [clearFileOp, showErrorOp, hideLoadingOp, exclusiveInputs]
  | submit o =>
    simp only [applyEvent, handleFormSubmitOp]
    split
    · simpa [showErrorOp, hideLoadingOp, exclusiveInputs] using h
    · split
      · simpa [showErrorOp, hideLoadingOp, exclusiveInputs] using h
      · obtain ⟨hf, hu⟩ := analyzeImage_inputs s.fileSel (jsTrim s.urlValue) o s
        simpa [exclusiveInputs, hf, hu] using h
  | reset =>
    simp [applyEvent, resetFormOp, clearFileOp, clearUrlOp, exclusiveInputs, jsTrim]
  | download ts =>
    simp only [applyEvent, downloadReportOp]
    rcases h2 : s.currentAnalysisData with _ | dd
    · simpa [h2, showErrorOp, hideLoadingOp, exclusiveInputs] using h
    · simpa [h2] using h

/-- Claim C1: every submission holding both a file and a non-empty
(trimmed) URL reports the validation error "Please provide either a
file or URL, not both" and records no network effect; every submission
holding neither reports the "please provide" validation prompt
("Please upload an image file or enter an image URL") and records no
network effect; every submission holding exactly one of the two
reaches `analyzeImageOp` and records exactly one POST carrying that
input. -/
theorem claim_C1_submit_validation (s : UIState) (o : FetchOutcome) :
    (s.fileSel.isSome = true → jsTrim s.urlValue ≠ "" →
      (handleFormSubmitOp o s).1.errorMessage = "Please provide either a file or URL, not both"
      ∧ (handleFormSubmitOp o s).1.errorVisible = true
      ∧ (handleFormSubmitOp o s).2 = [])
  ∧ (s.fileSel = none → jsTrim s.urlValue = "" →
      (handleFormSubmitOp o s).1.errorMessage = "Please upload an image file or enter an image URL"
      ∧ (handleFormSubmitOp o s).1.errorVisible = true
      ∧ (handleFormSubmitOp o s).2 = [])
  ∧ ((s.fileSel.isSome = true ↔ jsTrim s.urlValue = "") →
      (handleFormSubmitOp o s).2 =
        [Effect.post { file := s.fileSel,
                       image_url := if jsTrim s.urlValue = "" then none
                                    else some (jsTrim s.urlValue) }]) := by
  refine ⟨?_, ?_, ?_⟩
  · intro hf hu
    simp [handleFormSubmitOp, hf, hu, Option.isNone_iff_eq_none, showErrorOp, hideLoadingOp]
  · intro hf hu
    simp [handleFormSubmitOp, hf, hu, showErrorOp, hideLoadingOp]
  · intro hiff
    rcases hs : s.fileSel with _ | f
    · have hu : jsTrim s.urlValue ≠ "" := by
        intro h; have := hiff.mpr h; simp [hs] at this
      simp [handleFormSubmitOp, hs, hu, analyzeImage_effects]
    · have hu : jsTrim s.urlValue = "" := hiff.mp (by simp [hs])
      simp [handleFormSubmitOp, hs, hu, analyzeImage_effects]

/-- Witness for claim C1 at three concrete states: both inputs set,
neither set, and only a file set. -/
theorem claim_C1_witness :
    (handleFormSubmitOp (.thrown "net")
      { initState with
        fileSel := some { name := "car.png", type := "image/png", content := "img" },
        urlValue := "http://example.com/car.jpg" }).1.errorMessage
      = "Please provide either a file or URL, not both"
  ∧ (handleFormSubmitOp (.thrown "net")
      { initState with
        fileSel := some { name := "car.png", type := "image/png", content := "img" },
        urlValue := "http://example.com/car.jpg" }).2 = []
  ∧ (handleFormSubmitOp (.thrown "net") initState).1.errorMessage
      = "Please upload an image file or enter an image URL"
  ∧ (handleFormSubmitOp (.thrown "net") initState).2 = []
  ∧ (handleFormSubmitOp (.thrown "net")
      { initState with
        fileSel := some { name := "car.png", type := "image/png", content := "img" } }).2
      = [Effect.post
          { file := some { name := "car.png", type := "image/png", content := "img" },
            image_url := none }] :=
  ⟨((claim_C1_submit_validation
      { initState with
        fileSel := some { name := "car.png", type := "image/png", content := "img" },
        urlValue := "http://example.com/car.jpg" } (.thrown "net")).1
      (by decide) (by decide)).1,
   ((claim_C1_submit_validation
      { initState with
        fileSel := some { name := "car.png", type := "image/png", content := "img" },
        urlValue := "http://example.com/car.jpg" } (.thrown "net")).1
      (by decide) (by decide)).2.2,
   ((claim_C1_submit_validation initState (.thrown "net")).2.1 rfl (by decide)).1,
   ((claim_C1_submit_validation initState (.thrown "net")).2.1 rfl (by decide)).2.2,
   (claim_C1_submit_validation
      { initState with
        fileSel := some { name := "car.png", type := "image/png", content := "img" } }
      (.thrown "net")).2.2 (by decide)⟩

/-- Counterexample to claim C2 as stated: a non-2xx response whose
body carries `detail = "could not fetch the image"` is NOT surfaced
verbatim; because the message contains the substring "fetch", the
catch block replaces it with the generic connectivity message. -/
theorem claim_C2_counterexample :
    ((analyzeImageOp none "http://example.com/car.jpg"
        (.resp false
          { success := false, detail := some "could not fetch the image", error := none,
            make := none, model := none, color := none,
            damage_summary := none, repair_cost_estimate := none })
        initState).1.errorMessage
      = "Unable to connect to the analysis service. Please check if the backend server is running.")
  ∧ ((analyzeImageOp none "http://example.com/car.jpg"
        (.resp false
          { success := false, detail := some "could not fetch the image", error := none,
            make := none, model := none, color := none,
            damage_summary := none, repair_cost_estimate := none })
        initState).1.errorMessage ≠ "could not fetch the image") := by
  decide

/-- Claim C2 (amended): every response with non-ok HTTP status or a
false success flag drives the UI to the error state and never to the
results state; the displayed message is the response error field
(`detail` for non-2xx, `error` for success:false) verbatim whenever
that field is present, non-empty and does not contain the substring
"fetch" (a message containing "fetch" is replaced by the generic
connectivity message), and the fallback "Analysis failed" is shown
when the field is absent or empty. -/
theorem claim_C2_amended (s : UIState) (f : Option File) (u : String)
    (ok : Bool) (b : RespBody) (hfail : ok = false ∨ b.success = false) :
    (analyzeImageOp f u (.resp ok b) s).1.errorVisible = true
  ∧ (analyzeImageOp f u (.resp ok b) s).1.resultsVisible = false
  ∧ (∀ m, (if ok = true then b.error else b.detail) = some m → m ≠ "" →
      containsStr m "fetch" = false →
      (analyzeImageOp f u (.resp ok b) s).1.errorMessage = m)
  ∧ ((if ok = true then b.error else b.detail) = none
      ∨ (if ok = true then b.error else b.detail) = some "" →
      (analyzeImageOp f u (.resp ok b) s).1.errorMessage = "Analysis failed") := by
  have hAF : containsStr "Analysis failed" "fetch" = false := by decide
  cases ok with
  | false =>
    have h1 := catchBlock_shape (jsOr b.detail "Analysis failed") (showLoadingOp s)
    refine ⟨h1.1, h1.2.1, ?_, ?_⟩
    · intro m hm hm2 hmf
      simp only [if_neg (by decide : ¬ (false = true))] at hm
      have : jsOr b.detail "Analysis failed" = m := by simp [jsOr, hm, hm2]
      rw [show (analyzeImageOp f u (.resp false b) s).1
            = hideLoadingOp (catchBlock (jsOr b.detail "Analysis failed") (showLoadingOp s)) from rfl,
          h1.2.2.2.2.2.2.2.2.2, this, if_neg]
      · simp [jsOr, hm2]
      · simp [hmf]
    · intro hm
      rw [if_neg (by decide : ¬ (false = true))] at hm
      have : jsOr b.detail "Analysis failed" = "Analysis failed" := by
        rcases hm with hm | hm <;> simp [jsOr, hm]
      rw [show (analyzeImageOp f u (.resp false b) s).1
            = hideLoadingOp (catchBlock (jsOr b.detail "Analysis failed") (showLoadingOp s)) from rfl,
          h1.2.2.2.2.2.2.2.2.2, this, if_neg]
      · simp [jsOr]
      · simp [hAF]
  | true =>
    have hbs : b.success = false := by
      rcases hfail with h | h
      · cases h
      · exact h
    have h1 := catchBlock_shape (jsOr b.error "Analysis failed") (showLoadingOp s)
    have hred : (analyzeImageOp f u (.resp true b) s).1
        = hideLoadingOp (catchBlock (jsOr b.error "Analysis failed") (showLoadingOp s)) := by
      simp [analyzeImageOp, hbs]
    refine ⟨?_, ?_, ?_, ?_⟩
    · rw [hred]; exact h1.1
    · rw [hred]; exact h1.2.1
    · intro m hm hm2 hmf
      rw [if_pos rfl] at hm
      have : jsOr b.error "Analysis failed" = m := by simp [jsOr, hm, hm2]
      rw [hred, h1.2.2.2.2.2.2.2.2.2, this, if_neg]
      · simp [jsOr, hm2]
      · simp [hmf]
    · intro hm
      rw [if_pos rfl] at hm
      have : jsOr b.error "Analysis failed" = "Analysis failed" := by
        rcases hm with hm | hm <;> simp [jsOr, hm]
      rw [hred, h1.2.2.2.2.2.2.2.2.2, this, if_neg]
      · simp [jsOr]
      · simp [hAF]

/-- Witness for claim C2 at concrete non-2xx responses: one carrying
`detail = "Bad image"` (surfaced verbatim) and one carrying an empty
detail field (fallback "Analysis failed"). -/
theorem claim_C2_witness :
    (analyzeImageOp none "u"
      (.resp false
        { success := false, detail := some "Bad image", error := none,
          make := none, model := none, color := none,
          damage_summary := none, repair_cost_estimate := none })
      initState).1.errorVisible = true
  ∧ (analyzeImageOp none "u"
      (.resp false
        { success := false, detail := some "Bad image", error := none,
          make := none, model := none, color := none,
          damage_summary := none, repair_cost_estimate := none })
      initState).1.errorMessage = "Bad image"
  ∧ (analyzeImageOp none "u"
      (.resp false
        { success := false, detail := some "", error := none,
          make := none, model := none, color := none,
          damage_summary := none, repair_cost_estimate := none })
      initState).1.errorMessage = "Analysis failed" :=
  ⟨(claim_C2_amended initState none "u" false _ (Or.inl rfl)).1,
   (claim_C2_amended initState none "u" false _ (Or.inl rfl)).2.2.1 "Bad image" (by decide) (by decide) (by decide),
   (claim_C2_amended initState none "u" false _ (Or.inl rfl)).2.2.2 (Or.inr (by decide))⟩

set_option maxRecDepth 100000 in
/-- Counterexample to claim C3 as stated: after a successful analysis
whose body lacks `make`, the results view renders "Unknown", but the
downloaded report interpolates the raw field (giving "undefined"), so
the payload does not contain the rendered string "Unknown". -/
theorem claim_C3_counterexample :
    ((analyzeImageOp none "http://example.com/car.jpg"
        (.resp true
          { success := true, detail := none, error := none,
            make := none, model := some "Civic", color := some "Blue",
            damage_summary := some "Front bumper dent", repair_cost_estimate := some "900 USD" })
        initState).1.carMake = "Unknown")
  ∧ ((downloadReportOp { iso := "2026-10-11T12:00:00.000Z", locale := "10/11/2026, 12:00:00 PM" }
        (analyzeImageOp none "http://example.com/car.jpg"
          (.resp true
            { success := true, detail := none, error := none,
              make := none, model := some "Civic", color := some "Blue",
              damage_summary := some "Front bumper dent", repair_cost_estimate := some "900 USD" })
          initState).1).2
      = [Effect.download
          (reportFileName { iso := "2026-10-11T12:00:00.000Z", locale := "10/11/2026, 12:00:00 PM" })
          (reportText
            { success := true, detail := none, error := none,
              make := none, model := some "Civic", color := some "Blue",
              damage_summary := some "Front bumper dent", repair_cost_estimate := some "900 USD" }
            { iso := "2026-10-11T12:00:00.000Z", locale := "10/11/2026, 12:00:00 PM" })])
  ∧ (containsStr
        (reportText
          { success := true, detail := none, error := none,
            make := none, model := some "Civic", color := some "Blue",
            damage_summary := some "Front bumper dent", repair_cost_estimate := some "900 USD" }
          { iso := "2026-10-11T12:00:00.000Z", locale := "10/11/2026, 12:00:00 PM" })
        "Unknown" = false) := by
  decide

set_option maxRecDepth 4000 in
/-- Claim C3 (amended): after a successful analysis whose five result
fields are all present and non-empty, `downloadReportOp` emits exactly
one download whose text payload contains, verbatim, the make, model,
color, damage summary and repair cost strings that the results view
rendered, plus the fixed disclaimer string, and whose file name is
"ClaimCompass_Report_" followed by the formatted timestamp and
".txt" (in particular the name contains the timestamp). -/
theorem claim_C3_amended (s : UIState) (f : Option File) (u : String) (d : RespBody)
    (ts : Timestamp) (mk md cl dm rc : String)
    (hsucc : d.success = true)
    (hmk : d.make = some mk) (hmk2 : mk ≠ "")
    (hmd : d.model = some md) (hmd2 : md ≠ "")
    (hcl : d.color = some cl) (hcl2 : cl ≠ "")
    (hdm : d.damage_summary = some dm) (hdm2 : dm ≠ "")
    (hrc : d.repair_cost_estimate = some rc) (hrc2 : rc ≠ "") :
    (downloadReportOp ts (analyzeImageOp f u (.resp true d) s).1).2
        = [Effect.download (reportFileName ts) (reportText d ts)]
  ∧ (analyzeImageOp f u (.resp true d) s).1.carMake = mk
  ∧ containsStr (reportText d ts) mk = true
  ∧ (analyzeImageOp f u (.resp true d) s).1.carModel = md
  ∧ containsStr (reportText d ts) md = true
  ∧ (analyzeImageOp f u (.resp true d) s).1.carColor = cl
  ∧ containsStr (reportText d ts) cl = true
  ∧ (analyzeImageOp f u (.resp true d) s).1.damageSummaryText = dm
  ∧ containsStr (reportText d ts) dm = true
  ∧ (analyzeImageOp f u (.resp true d) s).1.repairCostText = rc
  ∧ containsStr (reportText d ts) rc = true
  ∧ containsStr (reportText d ts) disclaimerText = true
  ∧ reportFileName ts = "ClaimCompass_Report_" ++ fmtStamp ts.iso ++ ".txt"
  ∧ containsStr (reportFileName ts) (fmtStamp ts.iso) = true := by
  have hs1 : (analyzeImageOp f u (.resp true d) s).1
      = hideLoadingOp (showResultsOp d
          { showLoadingOp s with currentAnalysisData := some d }) := by
    simp [analyzeImageOp, hsucc]
  have hjmk : jsDisplay d.make = mk := by simp [jsDisplay, hmk]
  have hjmd : jsDisplay d.model = md := by simp [jsDisplay, hmd]
  have hjcl : jsDisplay d.color = cl := by simp [jsDisplay, hcl]
  have hjdm : jsDisplay d.damage_summary = dm := by simp [jsDisplay, hdm]
  have hjrc : jsDisplay d.repair_cost_estimate = rc := by simp [jsDisplay, hrc]
  have hcd : (analyzeImageOp f u (.resp true d) s).1.currentAnalysisData = some d := by
    rw [hs1]; simp [hideLoadingOp, showResultsOp]
  refine ⟨?_, ?_, ?_, ?_, ?_, ?_, ?_, ?_, ?_, ?_, ?_, ?_, rfl, ?_⟩
  · simp [downloadReportOp, hcd]
  · rw [hs1]; simp [hideLoadingOp, showResultsOp, jsOr, hmk, hmk2]
  · simp only [reportText, hjmk, hjmd, hjcl, hjdm, hjrc, strAppend_assoc]
    repeat (first | exact containsStr_head _ _ | apply containsStr_tail)
  · rw [hs1]; simp [hideLoadingOp, showResultsOp, jsOr, hmd, hmd2]
  · simp only [reportText, hjmk, hjmd, hjcl, hjdm, hjrc, strAppend_assoc]
    repeat (first | exact containsStr_head _ _ | apply containsStr_tail)
  · rw [hs1]; simp [hideLoadingOp, showResultsOp, jsOr, hcl, hcl2]
  · simp only [reportText, hjmk, hjmd, hjcl, hjdm, hjrc, strAppend_assoc]
    repeat (first | exact containsStr_head _ _ | apply containsStr_tail)
  · rw [hs1]; simp [hideLoadingOp, showResultsOp, jsOr, hdm, hdm2]
  · simp only [reportText, hjmk, hjmd, hjcl, hjdm, hjrc, strAppend_assoc]
    repeat (first | exact containsStr_head _ _ | apply containsStr_tail)
  · rw [hs1]; simp [hideLoadingOp, showResultsOp, jsOr, hrc, hrc2]
  · simp only [reportText, hjmk, hjmd, hjcl, hjdm, hjrc, strAppend_assoc]
    repeat (first | exact containsStr_head _ _ | apply containsStr_tail)
  · simp only [reportText, hjmk, hjmd, hjcl, hjdm, hjrc, strAppend_assoc]
    repeat (first | exact containsStr_head _ _ | apply containsStr_tail)
  · simp only [reportFileName, strAppend_assoc]
    apply containsStr_tail
    exact containsStr_head _ _

/-- Witness for claim C3 at a concrete fully-populated response. -/
theorem claim_C3_witness :
    (analyzeImageOp none "http://example.com/car.jpg"
      (.resp true
        { success := true, detail := none, error := none,
          make := some "Honda", model := some "Civic", color := some "Blue",
          damage_summary := some "Front bumper dent", repair_cost_estimate := some "900 USD" })
      initState).1.carMake = "Honda"
  ∧ containsStr
      (reportText
        { success := true, detail := none, error := none,
          make := some "Honda", model := some "Civic", color := some "Blue",
          damage_summary := some "Front bumper dent", repair_cost_estimate := some "900 USD" }
        { iso := "2026-10-11T12:00:00.000Z", locale := "10/11/2026, 12:00:00 PM" })
      "Honda" = true :=
  ⟨(claim_C3_amended initState none "http://example.com/car.jpg" _
      { iso := "2026-10-11T12:00:00.000Z", locale := "10/11/2026, 12:00:00 PM" }
      "Honda" "Civic" "Blue" "Front bumper dent" "900 USD"
      rfl rfl (by decide) rfl (by decide) rfl (by decide) rfl (by decide) rfl (by decide)).2.1,
   (claim_C3_amended initState none "http://example.com/car.jpg" _
      { iso := "2026-10-11T12:00:00.000Z", locale := "10/11/2026, 12:00:00 PM" }
      "Honda" "Civic" "Blue" "Front bumper dent" "900 USD"
      rfl rfl (by decide) rfl (by decide) rfl (by decide) rfl (by decide) rfl (by decide)).2.2.1⟩

/-- Claim C4: for every successful response, `showResultsOp` renders
exactly the response field when it is present and non-empty, and
renders the documented default "Unknown" for each of make, model and
color that is absent or empty; the damage summary and repair cost
fields are rendered verbatim when present and non-empty, and the
results card is shown. -/
theorem claim_C4_render_defaults (s : UIState) (d : RespBody) :
    ((∀ v, d.make = some v → v ≠ "" → (showResultsOp d s).carMake = v)
      ∧ (d.make = none ∨ d.make = some "" → (showResultsOp d s).carMake = "Unknown"))
  ∧ ((∀ v, d.model = some v → v ≠ "" → (showResultsOp d s).carModel = v)
      ∧ (d.model = none ∨ d.model = some "" → (showResultsOp d s).carModel = "Unknown"))
  ∧ ((∀ v, d.color = some v → v ≠ "" → (showResultsOp d s).carColor = v)
      ∧ (d.color = none ∨ d.color = some "" → (showResultsOp d s).carColor = "Unknown"))
  ∧ (∀ v, d.damage_summary = some v → v ≠ "" → (showResultsOp d s).damageSummaryText = v)
  ∧ (∀ v, d.repair_cost_estimate = some v → v ≠ "" → (showResultsOp d s).repairCostText = v)
  ∧ (showResultsOp d s).resultsVisible = true
  ∧ (showResultsOp d s).errorVisible = false
  ∧ (showResultsOp d s).welcomeVisible = false := by
  refine ⟨⟨?_, ?_⟩, ⟨?_, ?_⟩, ⟨?_, ?_⟩, ?_, ?_, rfl, rfl, rfl⟩
  · intro v h h2; simp [showResultsOp, jsOr, h, h2]
  · rintro (h | h) <;> simp [showResultsOp, jsOr, h]
  · intro v h h2; simp [showResultsOp, jsOr, h, h2]
  · rintro (h | h) <;> simp [showResultsOp, jsOr, h]
  · intro v h h2; simp [showResultsOp, jsOr, h, h2]
  · rintro (h | h) <;> simp [showResultsOp, jsOr, h]
  · intro v h h2; simp [showResultsOp, jsOr, h, h2]
  · intro v h h2; simp [showResultsOp, jsOr, h, h2]

/-- Witness for claim C4 at a fully-populated and at an empty
response. -/
theorem claim_C4_witness :
    (showResultsOp
      { success := true, detail := none, error := none,
        make := some "Toyota", model := some "Camry", color := some "Silver",
        damage_summary := some "Scratches", repair_cost_estimate := some "500 USD" }
      initState).carMake = "Toyota"
  ∧ (showResultsOp
      { success := true, detail := none, error := none,
        make := none, model := none, color := none,
        damage_summary := none, repair_cost_estimate := none }
      initState).carMake = "Unknown" :=
  ⟨(claim_C4_render_defaults initState
      { success := true, detail := none, error := none,
        make := some "Toyota", model := some "Camry", color := some "Silver",
        damage_summary := some "Scratches", repair_cost_estimate := some "500 USD" }).1.1
      "Toyota" rfl (by decide),
   (claim_C4_render_defaults initState
      { success := true, detail := none, error := none,
        make := none, model := none, color := none,
        damage_summary := none, repair_cost_estimate := none }).1.2 (Or.inl rfl)⟩

/-- Claim C5: whenever `downloadReportOp` runs with no stored analysis
result, it shows the local validation error "No analysis data
available to download" and records no effect (no file or blob is
created); moreover no `downloadReportOp` path ever records a POST, so
no server round-trip occurs. -/
theorem claim_C5_download_requires_data (s s2 : UIState) (ts ts2 : Timestamp)
    (h : s.currentAnalysisData = none) :
    (downloadReportOp ts s).1.errorMessage = "No analysis data available to download"
  ∧ (downloadReportOp ts s).1.errorVisible = true
  ∧ (downloadReportOp ts s).2 = []
  ∧ (∀ e ∈ (downloadReportOp ts2 s2).2, ∀ fd, e ≠ Effect.post fd) := by
  refine ⟨?_, ?_, ?_, ?_⟩
  · simp [downloadReportOp, h, showErrorOp, hideLoadingOp]
  · simp [downloadReportOp, h, showErrorOp, hideLoadingOp]
  · simp [downloadReportOp, h]
  · intro e he fd
    rcases h2 : s2.currentAnalysisData with _ | dd <;>
      simp [downloadReportOp, h2] at he
    · rw [he]
      simp

/-- Witness for claim C5 at the initial state, whose result slot is
empty. -/
theorem claim_C5_witness :
    (downloadReportOp { iso := "2026-10-11T12:00:00.000Z", locale := "10/11/2026, 12:00:00 PM" }
      initState).1.errorMessage = "No analysis data available to download"
  ∧ (downloadReportOp { iso := "2026-10-11T12:00:00.000Z", locale := "10/11/2026, 12:00:00 PM" }
      initState).2 = [] :=
  ⟨(claim_C5_download_requires_data initState initState
      { iso := "2026-10-11T12:00:00.000Z", locale := "10/11/2026, 12:00:00 PM" }
      { iso := "2026-10-11T12:00:00.000Z", locale := "10/11/2026, 12:00:00 PM" } rfl).1,
   (claim_C5_download_requires_data initState initState
      { iso := "2026-10-11T12:00:00.000Z", locale := "10/11/2026, 12:00:00 PM" }
      { iso := "2026-10-11T12:00:00.000Z", locale := "10/11/2026, 12:00:00 PM" } rfl).2.2.1⟩

/-- Claim C6 evaluated at its failing input: selecting a non-image
file (MIME type "application/pdf") through the file chooser shows the
validation error "Please select an image file", but the file REMAINS
selected, and the subsequent form submission issues a POST carrying
that non-image file — contradicting the claim that client-side
validation errors never result in a POST to the analysis endpoint. -/
theorem claim_C6_nonimage_file_posted :
    (handleFileSelectOp [{ name := "doc.pdf", type := "application/pdf", content := "pdfbytes" }]
      initState).errorVisible = true
  ∧ (handleFileSelectOp [{ name := "doc.pdf", type := "application/pdf", content := "pdfbytes" }]
      initState).errorMessage = "Please select an image file"
  ∧ (handleFileSelectOp [{ name := "doc.pdf", type := "application/pdf", content := "pdfbytes" }]
      initState).fileSel
      = some { name := "doc.pdf", type := "application/pdf", content := "pdfbytes" }
  ∧ (handleFormSubmitOp (.thrown "TypeError: Failed to fetch")
      (handleFileSelectOp
        [{ name := "doc.pdf", type := "application/pdf", content := "pdfbytes" }]
        initState)).2
      = [Effect.post
          { file := some { name := "doc.pdf", type := "application/pdf", content := "pdfbytes" },
            image_url := none }] := by
  decide

/-- Claim C7: file and URL inputs are mutually exclusive — selecting
or dropping a file clears the URL value and hides the URL preview,
entering a non-empty (trimmed) URL clears the file selection and hides
the file preview, and every state reachable from the initial page by
event-handler sequences satisfies the exclusivity invariant (never
both a selected file and a non-empty trimmed URL). -/
theorem claim_C7_inputs_exclusive :
    (∀ (s : UIState) (f : File) (t : List File),
        (handleFileSelectOp (f :: t) s).urlValue = ""
      ∧ (handleFileSelectOp (f :: t) s).urlPreviewVisible = false
      ∧ (handleFileSelectOp (f :: t) s).fileSel = some f)
  ∧ (∀ (s : UIState) (f : File) (t : List File), strStartsWith f.type "image/" = true →
        (handleDropOp (f :: t) s).urlValue = ""
      ∧ (handleDropOp (f :: t) s).urlPreviewVisible = false
      ∧ (handleDropOp (f :: t) s).fileSel = some f)
  ∧ (∀ (s : UIState) (v : String), jsTrim v ≠ "" →
        (urlInputOp v s).fileSel = none
      ∧ (urlInputOp v s).filePreviewVisible = false)
  ∧ (∀ s : UIState, Reachable s → exclusiveInputs s = true) := by
  refine ⟨?_, ?_, ?_, ?_⟩
  · intro s f t
    simp only [handleFileSelectOp, previewFileOp, List.head?, clearUrlOp]
    split <;> simp [showErrorOp, hideLoadingOp]
  · intro s f t himg
    simp [handleDropOp, List.head?, himg, previewFileOp, clearUrlOp]
  · intro s v hv
    simp [urlInputOp, hv, clearFileOp]
  · intro s hs
    induction hs with
    | init => decide
    | next s2 e hs2 ih => exact applyEvent_exclusive s2 e ih

/-- Witness for claim C7 at a concrete image drop, a concrete URL
entry, and the initial reachable state. -/
theorem claim_C7_witness :
    (handleDropOp [{ name := "car.png", type := "image/png", content := "img" }] initState).urlValue = ""
  ∧ (urlInputOp "http://example.com/car.jpg" initState).fileSel = none
  ∧ exclusiveInputs initState = true :=
  ⟨(claim_C7_inputs_exclusive.2.1 initState { name := "car.png", type := "image/png", content := "img" } []
      (by decide)).1,
   (claim_C7_inputs_exclusive.2.2.1 initState "http://example.com/car.jpg" (by decide)).1,
   claim_C7_inputs_exclusive.2.2.2 initState Reachable.init⟩

/-- Counterexample to claim C8 as stated: `showResults` does not hide
the loading card, so immediately after `showResultsOp` completes on
the in-flight state produced by `showLoadingOp`, both the loading and
the results cards are displayed (two cards at once). -/
theorem claim_C8_counterexample :
    (showResultsOp
      { success := true, detail := none, error := none,
        make := some "Honda", model := some "Civic", color := some "Blue",
        damage_summary := some "Front bumper dent", repair_cost_estimate := some "900 USD" }
      (showLoadingOp initState)).loadingVisible = true
  ∧ (showResultsOp
      { success := true, detail := none, error := none,
        make := some "Honda", model := some "Civic", color := some "Blue",
        damage_summary := some "Front bumper dent", repair_cost_estimate := some "900 USD" }
      (showLoadingOp initState)).resultsVisible = true
  ∧ visibleCount
      (showResultsOp
        { success := true, detail := none, error := none,
          make := some "Honda", model := some "Civic", color := some "Blue",
          damage_summary := some "Front bumper dent", repair_cost_estimate := some "900 USD" }
        (showLoadingOp initState)) = 2 := by
  decide

/-- Claim C8 (amended): `showLoadingOp` and `showErrorOp` always leave
at most one of the four cards displayed; `showResultsOp` and
`resetFormOp` do not touch the loading card and therefore guarantee
this only from states whose loading card is hidden; every completed
analysis attempt (whose finally block runs `hideLoading`) ends with at
most one card displayed. -/
theorem claim_C8_amended (s : UIState) (m : String) (d : RespBody) (f : Option File)
    (u : String) (o : FetchOutcome) :
    visibleCount (showLoadingOp s) ≤ 1
  ∧ visibleCount (showErrorOp m s) ≤ 1
  ∧ (s.loadingVisible = false → visibleCount (showResultsOp d s) ≤ 1)
  ∧ (s.loadingVisible = false → visibleCount (resetFormOp s) ≤ 1)
  ∧ visibleCount ((analyzeImageOp f u o s).1) ≤ 1 := by
  refine ⟨?_, ?_, ?_, ?_, ?_⟩
  · simp [visibleCount, showLoadingOp]
  · simp [visibleCount, showErrorOp, hideLoadingOp]
  · intro h
    simp [visibleCount, showResultsOp, h]
  · intro h
    simp [visibleCount, resetFormOp, clearFileOp, clearUrlOp, h]
  · cases o with
    | thrown m2 =>
      obtain ⟨he, hr, hl, -, -, -, hw, -, -, -⟩ := catchBlock_shape m2 (showLoadingOp s)
      show visibleCount (hideLoadingOp (catchBlock m2 (showLoadingOp s))) ≤ 1
      simp [visibleCount, he, hr, hl, hw]
    | resp ok b =>
      cases ok with
      | false =>
        obtain ⟨he, hr, hl, -, -, -, hw, -, -, -⟩ :=
          catchBlock_shape (jsOr b.detail "Analysis failed") (showLoadingOp s)
        show visibleCount (hideLoadingOp (catchBlock (jsOr b.detail "Analysis failed")
          (showLoadingOp s))) ≤ 1
        simp [visibleCount, he, hr, hl, hw]
      | true =>
        cases hb : b.success with
        | false =>
          obtain ⟨he, hr, hl, -, -, -, hw, -, -, -⟩ :=
            catchBlock_shape (jsOr b.error "Analysis failed") (showLoadingOp s)
          have hred : (analyzeImageOp f u (.resp true b) s).1
              = hideLoadingOp (catchBlock (jsOr b.error "Analysis failed") (showLoadingOp s)) := by
            simp [analyzeImageOp, hb]
          rw [hred]
          simp [visibleCount, he, hr, hl, hw]
        | true =>
          have hred : (analyzeImageOp f u (.resp true b) s).1
              = hideLoadingOp (showResultsOp b
                  { showLoadingOp s with currentAnalysisData := some b }) := by
            simp [analyzeImageOp, hb]
          rw [hred]
          simp [visibleCount, hideLoadingOp, showResultsOp, showLoadingOp]

/-- Witness for claim C8 at the initial state, whose loading card is
hidden. -/
theorem claim_C8_witness :
    visibleCount (showLoadingOp initState) ≤ 1
  ∧ visibleCount (showResultsOp
      { success := true, detail := none, error := none,
        make := some "Honda", model := some "Civic", color := some "Blue",
        damage_summary := some "Front bumper dent", repair_cost_estimate := some "900 USD" }
      initState) ≤ 1
  ∧ visibleCount (resetFormOp initState) ≤ 1 :=
  ⟨(claim_C8_amended initState "m"
      { success := true, detail := none, error := none,
        make := some "Honda", model := some "Civic", color := some "Blue",
        damage_summary := some "Front bumper dent", repair_cost_estimate := some "900 USD" }
      none "" (.thrown "net")).1,
   (claim_C8_amended initState "m"
      { success := true, detail := none, error := none,
        make := some "Honda", model := some "Civic", color := some "Blue",
        damage_summary := some "Front bumper dent", repair_cost_estimate := some "900 USD" }
      none "" (.thrown "net")).2.2.1 rfl,
   (claim_C8_amended initState "m"
      { success := true, detail := none, error := none,
        make := some "Honda", model := some "Civic", color := some "Blue",
        damage_summary := some "Front bumper dent", repair_cost_estimate := some "900 USD" }
      none "" (.thrown "net")).2.2.2.1 rfl⟩

/-- Claim C9: `currentAnalysisData` is written only by the success
branch of `analyzeImageOp` (ok response with true success flag, which
stores exactly the response body) and reset to none only by
`resetFormOp`; every failed attempt (thrown fetch, non-ok response, or
false success flag) and every other event handler leaves it unchanged,
and `downloadReportOp` serializes precisely the held result. -/
theorem claim_C9_slot_discipline (s : UIState) (f : Option File) (u v m : String)
    (o : FetchOutcome) (d : RespBody) (b2 : Bool) (fs : List File) (ts : Timestamp) :
    ((analyzeImageOp f u (.thrown m) s).1.currentAnalysisData = s.currentAnalysisData)
  ∧ ((analyzeImageOp f u (.resp false d) s).1.currentAnalysisData = s.currentAnalysisData)
  ∧ (d.success = false →
      (analyzeImageOp f u (.resp true d) s).1.currentAnalysisData = s.currentAnalysisData)
  ∧ (d.success = true →
      (analyzeImageOp f u (.resp true d) s).1.currentAnalysisData = some d)
  ∧ ((resetFormOp s).currentAnalysisData = none)
  ∧ ((handleFileSelectOp fs s).currentAnalysisData = s.currentAnalysisData)
  ∧ ((handleDropOp fs s).currentAnalysisData = s.currentAnalysisData)
  ∧ ((urlInputOp v s).currentAnalysisData = s.currentAnalysisData)
  ∧ ((previewUrlOp b2 s).currentAnalysisData = s.currentAnalysisData)
  ∧ ((downloadReportOp ts s).1.currentAnalysisData = s.currentAnalysisData)
  ∧ ((handleFormSubmitOp o s).1.currentAnalysisData = s.currentAnalysisData
      ∨ ∃ bdy, o = .resp true bdy ∧ bdy.success = true
          ∧ (handleFormSubmitOp o s).1.currentAnalysisData = some bdy)
  ∧ (∀ dd, s.currentAnalysisData = some dd →
      (downloadReportOp ts s).2 = [Effect.download (reportFileName ts) (reportText dd ts)]) := by
  have hthrown : ∀ m2 : String,
      (hideLoadingOp (catchBlock m2 (showLoadingOp s))).currentAnalysisData
        = s.currentAnalysisData := by
    intro m2
    obtain ⟨-, -, -, -, -, hc, -, -, -, -⟩ := catchBlock_shape m2 (showLoadingOp s)
    exact hc
  refine ⟨hthrown m, hthrown _, ?_, ?_, rfl, ?_, ?_, ?_, ?_, ?_, ?_, ?_⟩
  · intro hd
    have hred : (analyzeImageOp f u (.resp true d) s).1
        = hideLoadingOp (catchBlock (jsOr d.error "Analysis failed") (showLoadingOp s)) := by
      simp [analyzeImageOp, hd]
    rw [hred]
    exact hthrown _
  · intro hd
    have hred : (analyzeImageOp f u (.resp true d) s).1
        = hideLoadingOp (showResultsOp d
            { showLoadingOp s with currentAnalysisData := some d }) := by
      simp [analyzeImageOp, hd]
    rw [hred]
    simp [hideLoadingOp, showResultsOp]
  · rcases fs with _ | ⟨f2, t⟩
    · simp [handleFileSelectOp]
    · simp only [handleFileSelectOp, previewFileOp, List.head?, clearUrlOp]
      split <;> simp [showErrorOp, hideLoadingOp]
  · rcases fs with _ | ⟨f2, t⟩
    · simp [handleDropOp]
    · simp only [handleDropOp, List.head?]
      split
      · simp [previewFileOp, clearUrlOp]
        split <;> simp [showErrorOp, hideLoadingOp]
      · simp [showErrorOp, hideLoadingOp]
  · simp only [urlInputOp]
    split <;> simp [clearFileOp]
  · simp only [previewUrlOp]
    split
    · simp [showErrorOp, hideLoadingOp]
    · split <;> simp [clearFileOp, showErrorOp, hideLoadingOp]
  · simp only [downloadReportOp]
    rcases h2 : s.currentAnalysisData with _ | dd
    · simp [showErrorOp, hideLoadingOp, h2]
    · simp [h2]
  · simp only [handleFormSubmitOp]
    split
    · left
      simp [showErrorOp, hideLoadingOp]
    · split
      · left
        simp [showErrorOp, hideLoadingOp]
      · cases o with
        | thrown m2 => exact Or.inl (hthrown m2)
        | resp ok bdy =>
          cases ok with
          | false => exact Or.inl (hthrown _)
          | true =>
            cases hbs : bdy.success with
            | false =>
              left
              have hred : (analyzeImageOp s.fileSel (jsTrim s.urlValue) (.resp true bdy) s).1
                  = hideLoadingOp (catchBlock (jsOr bdy.error "Analysis failed")
                      (showLoadingOp s)) := by
                simp [analyzeImageOp, hbs]
              rw [hred]
              exact hthrown _
            | true =>
              right
              refine ⟨bdy, rfl, hbs, ?_⟩
              have hred : (analyzeImageOp s.fileSel (jsTrim s.urlValue) (.resp true bdy) s).1
                  = hideLoadingOp (showResultsOp bdy
                      { showLoadingOp s with currentAnalysisData := some bdy }) := by
                simp [analyzeImageOp, hbs]
              rw [hred]
              simp [hideLoadingOp, showResultsOp]
  · intro dd hdd
    simp [downloadReportOp, hdd]

/-- Witness for claim C9: a concrete successful analysis stores its
body, and a reset clears the slot. -/
theorem claim_C9_witness :
    (analyzeImageOp none "http://example.com/car.jpg"
      (.resp true
        { success := true, detail := none, error := none,
          make := some "Honda", model := some "Civic", color := some "Blue",
          damage_summary := some "Front bumper dent", repair_cost_estimate := some "900 USD" })
      initState).1.currentAnalysisData
      = some
        { success := true, detail := none, error := none,
          make := some "Honda", model := some "Civic", color := some "Blue",
          damage_summary := some "Front bumper dent", repair_cost_estimate := some "900 USD" }
  ∧ (resetFormOp initState).currentAnalysisData = none :=
  ⟨(claim_C9_slot_discipline initState none "http://example.com/car.jpg" "v" "m" (.thrown "m")
      { success := true, detail := none, error := none,
        make := some "Honda", model := some "Civic", color := some "Blue",
        damage_summary := some "Front bumper dent", repair_cost_estimate := some "900 USD" }
      false [] { iso := "2026-10-11T12:00:00.000Z", locale := "10/11/2026, 12:00:00 PM" }).2.2.2.1 rfl,
   (claim_C9_slot_discipline initState none "http://example.com/car.jpg" "v" "m" (.thrown "m")
      { success := true, detail := none, error := none,
        make := some "Honda", model := some "Civic", color := some "Blue",
        damage_summary := some "Front bumper dent", repair_cost_estimate := some "900 USD" }
      false [] { iso := "2026-10-11T12:00:00.000Z", locale := "10/11/2026, 12:00:00 PM" }).2.2.2.2.1⟩

/-- Claim C10: every `showErrorOp` call leaves the loading card
hidden and the analyze button enabled with its idle label "Analyze
Damage" (the unconditional hideLoading call at its end), displays the
error card with the given message, and every analysis attempt —
including all error paths — ends with the loading card hidden and the
button enabled. -/
theorem claim_C10_error_enables_button (s : UIState) (m : String) (f : Option File) (u : String) (o : FetchOutcome) :
    (showErrorOp m s).loadingVisible = false
  ∧ (showErrorOp m s).btnDisabled = false
  ∧ (showErrorOp m s).btnLabel = "Analyze Damage"
  ∧ (showErrorOp m s).errorVisible = true
  ∧ (showErrorOp m s).errorMessage = m
  ∧ (analyzeImageOp f u o s).1.loadingVisible = false
  ∧ (analyzeImageOp f u o s).1.btnDisabled = false
  ∧ (analyzeImageOp f u o s).1.btnLabel = "Analyze Damage" := by
  refine ⟨rfl, rfl, rfl, rfl, rfl, ?_, ?_, ?_⟩ <;>
    (cases o with
     | thrown m2 => rfl
     | resp ok b =>
       cases ok with
       | false => rfl
       | true =>
         cases hb : b.success with
         | false => simp [analyzeImageOp, hb, hideLoadingOp]
         | true => simp [analyzeImageOp, hb, hideLoadingOp])

end ClaimCompass
